import Mathlib

/-!
Verification of the EQ assessment core (`assessment/eq_model.py`) of the
Advanced Emotional Intelligence (EQ) Assessment System.

The Python class `AdvancedEQAssessmentModel` is shallowly embedded here:
its pure methods become Lean functions over `String`, `ℚ` and association
lists (Python `dict`s keep insertion order, which the association-list
representation mirrors).  Floating point arithmetic in the source is
modelled exactly over `ℚ`.
-/

namespace EQModel

/-! ## String helpers mirroring Python `str` semantics

These are written as structural recursions over the character list so that
concrete instances evaluate by kernel reduction. -/

/-- Python's `not s or not s.strip()`: the string is empty or consists of
whitespace only. -/
def isBlank (s : String) : Bool :=
  s.toList.all Char.isWhitespace

/-- Accumulator-based whitespace splitter: `acc` is the current word reversed. -/
def splitWsAux : List Char → List Char → List (List Char)
  | [], acc => if acc.isEmpty then [] else [acc.reverse]
  | c :: cs, acc =>
    if c.isWhitespace then
      if acc.isEmpty then splitWsAux cs [] else acc.reverse :: splitWsAux cs []
    else
      splitWsAux cs (c :: acc)

/-- Python's `s.strip().split()`: split on whitespace runs, dropping empty
tokens. -/
def pyWords (s : String) : List String :=
  (splitWsAux s.toList []).map String.mk

/-- Python's `s.lower()` (ASCII case folding, as used on professions). -/
def lowerStr (s : String) : String :=
  String.mk (s.toList.map Char.toLower)

/-- Python's `s.upper()` (ASCII case folding, as used on sentiment labels). -/
def upperStr (s : String) : String :=
  String.mk (s.toList.map Char.toUpper)

/-! ## Response validation (`validate_responses`, eq_model.py lines 129-153) -/

/-- `self.min_words_per_response` set in `__init__`. -/
def min_words_per_response : ℕ := 10

/-- The f-string `"Answer {i+1} cannot be empty. Please provide a thoughtful
response."` where `i` is the 0-based index. -/
def emptyMsg (i : ℕ) : String :=
  "Answer " ++ toString (i + 1) ++ " cannot be empty. Please provide a thoughtful response."

/-- The f-string used for under-length answers (two adjacent f-strings in the
source concatenate). -/
def shortMsg (i : ℕ) (r : String) : String :=
  "Answer " ++ toString (i + 1) ++ " is too short. Please provide at least " ++
    toString min_words_per_response ++ " words (currently " ++
    toString (pyWords r).length ++ " words). Your response should be detailed and reflective."

/-- The loop body of `validate_responses`, with `i` the 0-based index of the
first remaining response (Python `enumerate`). -/
def validate_responses_from (i : ℕ) : List String → Bool × Option String
  | [] => (true, none)
  | r :: rest =>
    if isBlank r then
      (false, some (emptyMsg i))
    else if (pyWords r).length < min_words_per_response then
      (false, some (shortMsg i r))
    else
      validate_responses_from (i + 1) rest

/-- `validate_responses(responses)`. -/
def validate_responses (responses : List String) : Bool × Option String :=
  validate_responses_from 0 responses

/-- Does a single response fail validation (blank, or too few words)? -/
def failsAt (r : String) : Bool :=
  isBlank r || decide ((pyWords r).length < min_words_per_response)

/-- Specification-level reading of the validator contract: find the first
failing response (with its 0-based index) and report the matching error,
emptiness taking precedence for that response; succeed when none fails. -/
def validate_spec (responses : List String) : Bool × Option String :=
  match (responses.enum.find? fun p => failsAt p.2) with
  | none => (true, none)
  | some (i, r) => (false, some (if isBlank r then emptyMsg i else shortMsg i r))

/-! ## Overall EQ interpretation (`interpret_overall_eq`, lines 392-407) -/

/-- `interpret_overall_eq(overall_score)`. -/
def interpret_overall_eq (overall_score : ℚ) : String :=
  if overall_score < 40 then "Low EQ"
  else if overall_score ≤ 70 then "Average EQ"
  else "High EQ"

/-! ## Scenario generation (`generate_scenario`, lines 55-107) -/

/-- Python's `needle in hay` on lists of characters. -/
def subOf (needle : List Char) : List Char → Bool
  | [] => needle.isEmpty
  | c :: rest => needle.isPrefixOf (c :: rest) || subOf needle rest

/-- Python's substring test `needle in hay` on strings. -/
def strIn (needle hay : String) : Bool :=
  subOf needle.toList hay.toList

/-- The teacher/lecturer/educator scenario text. -/
def teacherScenario : String :=
  "You are in the middle of teaching an important lesson when a student " ++
  "suddenly starts loudly criticizing your teaching method in front of the entire class, " ++
  "accusing you of being unfair and biased. Several other students begin nodding in " ++
  "agreement, and the atmosphere becomes tense and uncomfortable. You have 10 minutes " ++
  "left in the class and an important topic to cover before the upcoming exam."

/-- The healthcare scenario text. -/
def healthcareScenario : String :=
  "You are working in a busy hospital ward during a night shift. A patient's family member " ++
  "approaches you with extreme anger, blaming you for a delayed medication dose that " ++
  "has caused their relative discomfort. They raise their voice, attracting attention from " ++
  "other patients and staff. The family member threatens to file a complaint and questions " ++
  "your competence. Meanwhile, you have other critical patients requiring immediate attention."

/-- The management/leadership scenario text. -/
def managementScenario : String :=
  "You are leading a team project with a tight deadline. Two of your team members are " ++
  "engaged in a heated argument during a critical meeting, each blaming the other for " ++
  "missed deadlines and poor quality work. The conflict escalates, with personal attacks " ++
  "being exchanged. The rest of the team looks uncomfortable, and the project deadline " ++
  "is in 48 hours. Your supervisor is expecting a status update in 2 hours."

/-- The generic workplace scenario text. -/
def genericScenario : String :=
  "You have just presented your work to a group of colleagues and stakeholders. " ++
  "A senior colleague publicly criticizes your approach, pointing out what they perceive " ++
  "as fundamental flaws in your methodology. Their tone is condescending, and several " ++
  "others in the room begin questioning your decisions. You spent weeks preparing this " ++
  "work and believe in its value, but now you're facing public scrutiny and doubt."

/-- `generate_scenario(age, gender, profession)`: age and gender are accepted
but unused; profession is lower-cased and matched against keyword groups in
fixed priority order. -/
def generate_scenario (_age : ℤ) (_gender : String) (profession : String) : String :=
  let profession_lower := lowerStr profession
  if strIn "teacher" profession_lower || strIn "lecturer" profession_lower ||
      strIn "educator" profession_lower then
    teacherScenario
  else if strIn "nurse" profession_lower || strIn "doctor" profession_lower ||
      strIn "physician" profession_lower then
    healthcareScenario
  else if strIn "manager" profession_lower || strIn "lead" profession_lower ||
      strIn "director" profession_lower then
    managementScenario
  else
    genericScenario

/-! ## Per-response feature records (output of `analyze_single_response`)

`emotion_scores` is a Python dict from lower-cased emotion label to float
score, represented as an insertion-ordered association list. -/

/-- The fields of the analysis dictionary consumed by `calculate_eq_scores`. -/
structure Analysis where
  sentiment_label : String
  sentiment_score : ℚ
  emotion_scores : List (String × ℚ)
deriving DecidableEq

/-! ## Aggregation inside `calculate_eq_scores` (lines 291-347) -/

/-- Running sentiment totals (lines 292-295, 300-312). -/
structure SentTotals where
  pos : ℚ
  neg : ℚ
  neu : ℚ
  count : ℕ
deriving DecidableEq

/-- One iteration of the aggregation loop over `analyses` for sentiment. -/
def sentStep (t : SentTotals) (a : Analysis) : SentTotals :=
  let t' :=
    if a.sentiment_label = "POSITIVE" then { t with pos := t.pos + a.sentiment_score }
    else if a.sentiment_label = "NEGATIVE" then { t with neg := t.neg + a.sentiment_score }
    else { t with neu := t.neu + a.sentiment_score }
  { t' with count := t'.count + 1 }

/-- The sentiment totals after the aggregation loop. -/
def sentTotals (analyses : List Analysis) : SentTotals :=
  analyses.foldl sentStep ⟨0, 0, 0, 0⟩

/-- Python dict assignment `d[k] += v` on `emotion_totals`, initialising the
key to `0.0` first when absent (lines 315-318). -/
def addEmotion : List (String × ℚ) → String → ℚ → List (String × ℚ)
  | [], label, score => [(label, score)]
  | (l, s) :: rest, label, score =>
    if l = label then (l, s + score) :: rest
    else (l, s) :: addEmotion rest label score

/-- `emotion_totals` after the aggregation loop over all analyses. -/
def emotionTotals (analyses : List Analysis) : List (String × ℚ) :=
  analyses.foldl
    (fun t a => a.emotion_scores.foldl (fun t' p => addEmotion t' p.1 p.2) t) []

/-- Python `d.get(k, 0.0)` on a float-valued dict. -/
def dictGetQ : List (String × ℚ) → String → ℚ
  | [], _ => 0
  | p :: rest, k => if p.1 = k then p.2 else dictGetQ rest k

/-- `sum(d.values())`. -/
def valuesSum (m : List (String × ℚ)) : ℚ :=
  (m.map Prod.snd).sum

/-- `positive_ratio` (lines 320-326): mean positive sentiment score per
response, defaulting to `0.33` for zero responses. -/
def positive_ratio (analyses : List Analysis) : ℚ :=
  let t := sentTotals analyses
  if t.count > 0 then t.pos / t.count else 33/100

/-- `negative_ratio` (lines 320-326). -/
def negative_ratio (analyses : List Analysis) : ℚ :=
  let t := sentTotals analyses
  if t.count > 0 then t.neg / t.count else 33/100

/-- `neutral_ratio` (lines 320-326). -/
def neutral_ratio (analyses : List Analysis) : ℚ :=
  let t := sentTotals analyses
  if t.count > 0 then t.neu / t.count else 33/100

/-- `emotion_ratios` from `emotion_totals` (lines 329-337): divide each total
by the grand sum when it is positive, otherwise a uniform distribution over
the present keys (the dict comprehension yields the empty dict for an empty
`emotion_totals`). -/
def emotionRatiosOf (totals : List (String × ℚ)) : List (String × ℚ) :=
  let total_emotion_score := valuesSum totals
  if total_emotion_score > 0 then
    totals.map (fun p => (p.1, p.2 / total_emotion_score))
  else
    totals.map (fun p => (p.1, (1 : ℚ) / totals.length))

/-- The `emotion_ratios` dict computed by `calculate_eq_scores`. -/
def emotionRatios (analyses : List Analysis) : List (String × ℚ) :=
  emotionRatiosOf (emotionTotals analyses)

/-- `emotion_ratios.get(label, 0.0)` (lines 340-347). -/
def emotion_ratio (analyses : List Analysis) (label : String) : ℚ :=
  dictGetQ (emotionRatios analyses) label

/-! ## EQ scoring (lines 349-390) -/

/-- Demographics as consumed by `calculate_eq_scores`: only `age` is read,
via `demographics.get('age', 30)`. -/
structure Demographics where
  age : Option ℚ
deriving DecidableEq

/-- `age_factor = min(1.0, age / 60.0)` with the default age 30 (lines 371-372). -/
def ageFactor (demographics : Demographics) : ℚ :=
  min 1 ((demographics.age.getD 30) / 60)

/-- The six category scores, in the source's insertion order. -/
structure CategoryScores where
  self_awareness : ℚ
  emotional_resilience : ℚ
  conflict_resolution : ℚ
  cultural_awareness : ℚ
  empathy : ℚ
  stress_management : ℚ
deriving DecidableEq

/-- `max(0, min(100, x))` (lines 378-385). -/
def clampScore (x : ℚ) : ℚ := max 0 (min 100 x)

/-- The `category_scores` dict (lines 349-385): base 50 plus 50 times a linear
combination of ratios, age adjustment added to `emotional_resilience` and
`stress_management` before clamping every score to [0, 100]. -/
def categoryScores (analyses : List Analysis) (demographics : Demographics) :
    CategoryScores :=
  let joy_ratio := emotion_ratio analyses "joy"
  let sadness_ratio := emotion_ratio analyses "sadness"
  let anger_ratio := emotion_ratio analyses "anger"
  let fear_ratio := emotion_ratio analyses "fear"
  let disgust_ratio := emotion_ratio analyses "disgust"
  let love_ratio := emotion_ratio analyses "love"
  let self_awareness := 50 + 50 * (joy_ratio + love_ratio - sadness_ratio - anger_ratio)
  let emotional_resilience :=
    50 + 50 * (positive_ratio analyses - negative_ratio analyses - fear_ratio * (1/2))
  let conflict_resolution := 50 + 50 * (positive_ratio analyses - anger_ratio - disgust_ratio)
  let cultural_awareness := 50 + 50 * (neutral_ratio analyses + love_ratio - disgust_ratio)
  let empathy := 50 + 50 * (love_ratio + sadness_ratio * (7/10) - disgust_ratio)
  let stress_management := 50 + 50 * (positive_ratio analyses - fear_ratio - anger_ratio)
  let age_factor := ageFactor demographics
  let emotional_resilience := emotional_resilience + age_factor * 5
  let stress_management := stress_management + age_factor * 3
  { self_awareness := clampScore self_awareness
    emotional_resilience := clampScore emotional_resilience
    conflict_resolution := clampScore conflict_resolution
    cultural_awareness := clampScore cultural_awareness
    empathy := clampScore empathy
    stress_management := clampScore stress_management }

/-- `np.mean` over the six category scores in dict order (line 388). -/
def overallOf (s : CategoryScores) : ℚ :=
  (s.self_awareness + s.emotional_resilience + s.conflict_resolution +
    s.cultural_awareness + s.empathy + s.stress_management) / 6

/-- `calculate_eq_scores(analyses, demographics)` (lines 276-390). -/
def calculate_eq_scores (analyses : List Analysis) (demographics : Demographics) :
    CategoryScores × ℚ :=
  let category_scores := categoryScores analyses demographics
  (category_scores, overallOf category_scores)

/-- The category-score formulas exactly as the spec §4.5 writes them, as a
function of the aggregate ratios and `age_factor` (clamped after the
demographic adjustment). -/
def spec_category_scores (positive negative neutral joy love sadness anger fear
    disgust age_factor : ℚ) : CategoryScores :=
  { self_awareness := clampScore (50 + 50 * (joy + love - sadness - anger))
    emotional_resilience :=
      clampScore (50 + 50 * (positive - negative - (1/2) * fear) + age_factor * 5)
    conflict_resolution := clampScore (50 + 50 * (positive - anger - disgust))
    cultural_awareness := clampScore (50 + 50 * (neutral + love - disgust))
    empathy := clampScore (50 + 50 * (love + (7/10) * sadness - disgust))
    stress_management :=
      clampScore (50 + 50 * (positive - fear - anger) + age_factor * 3) }

/-- Sum of the sentiment scores of the responses bearing a given label
(spec §4.4 wording). -/
def specSentimentSum (analyses : List Analysis) (label : String) : ℚ :=
  ((analyses.filter (fun a => a.sentiment_label = label)).map
    (fun a => a.sentiment_score)).sum

/-- Sum of the sentiment scores of responses whose label is neither POSITIVE
nor NEGATIVE (the code's `else` bucket). -/
def codeNeutralSum (analyses : List Analysis) : ℚ :=
  ((analyses.filter (fun a =>
      ¬a.sentiment_label = "POSITIVE" ∧ ¬a.sentiment_label = "NEGATIVE")).map
    (fun a => a.sentiment_score)).sum

/-- A single emotion's total score across all responses (spec §4.4 wording):
per-record contribution is the sum of that record's entries for the label. -/
def specEmotionTotal (analyses : List Analysis) (label : String) : ℚ :=
  (analyses.map (fun a =>
    ((a.emotion_scores.filter (fun p => p.1 = label)).map Prod.snd).sum)).sum

/-- The grand sum of all emotion scores across all responses. -/
def specGrandTotal (analyses : List Analysis) : ℚ :=
  (analyses.map (fun a => (a.emotion_scores.map Prod.snd).sum)).sum

/-! ## Classifier output shapes (`analyze_single_response`, lines 155-258)

Dynamic Python values delivered by the two HuggingFace pipelines are modelled
by `PyVal`.  Operations that can raise in Python (`.upper()`/`.lower()` on a
non-string, `float()` on a non-number) return `Except`; Python numbers are
`pnum` (a numeric string is outside the modelled universe, so `float()` on a
non-`pnum` is modelled as raising). -/

/-- A dynamic Python value: string, number, list/tuple, dict or None. -/
inductive PyVal where
  | pstr : String → PyVal
  | pnum : ℚ → PyVal
  | plist : List PyVal → PyVal
  | pdict : List (String × PyVal) → PyVal
  | pnone : PyVal

/-- The exceptions the analysis code can hit on malformed values. -/
inductive PyErr where
  | attributeError : PyErr
  | valueError : PyErr
deriving DecidableEq

/-- Python `d.get(k, dflt)`. -/
def dictGetV : List (String × PyVal) → String → PyVal → PyVal
  | [], _, dflt => dflt
  | p :: rest, k, dflt => if p.1 = k then p.2 else dictGetV rest k dflt

/-- Python `k in d`. -/
def hasKey : List (String × PyVal) → String → Bool
  | [], _ => false
  | p :: rest, k => if p.1 = k then true else hasKey rest k

/-- Python `v.upper()`: raises AttributeError off strings. -/
def pyUpper : PyVal → Except PyErr String
  | .pstr s => .ok (upperStr s)
  | _ => .error .attributeError

/-- Python `v.lower()`: raises AttributeError off strings. -/
def pyLowerV : PyVal → Except PyErr String
  | .pstr s => .ok (lowerStr s)
  | _ => .error .attributeError

/-- Python `float(v)` without a surrounding try/except. -/
def pyFloat : PyVal → Except PyErr ℚ
  | .pnum q => .ok q
  | _ => .error .valueError

/-- The guarded `try: float(v) except: 0.0` conversion (lines 220-224). -/
def floatTry : PyVal → Option ℚ
  | .pnum q => some q
  | _ => none

/-- Python `str(v)` (total; non-atomic values get a canonical rendering). -/
def pyStrOf : PyVal → String
  | .pstr s => s
  | .pnum q => toString q
  | .pnone => "None"
  | .plist _ => "<list>"
  | .pdict _ => "<dict>"

/-- Python truthiness, as used by `if emotion_results:`. -/
def truthy : PyVal → Bool
  | .pstr s => !s.isEmpty
  | .pnum q => decide (q ≠ 0)
  | .plist l => !l.isEmpty
  | .pdict d => !d.isEmpty
  | .pnone => false

/-- Python dict assignment `d[k] = v` (replacing, insertion order kept). -/
def dictSetQ : List (String × ℚ) → String → ℚ → List (String × ℚ)
  | [], k, v => [(k, v)]
  | p :: rest, k, v => if p.1 = k then (p.1, v) :: rest else p :: dictSetQ rest k v

/-- Lines 166-186: normalize the raw sentiment pipeline output to the
canonical (label, score) pair, with the `{'label': 'NEUTRAL', 'score': 0.5}`
fallback for shapes that are neither a nonempty list nor a dict, and label
synonym mapping POS→POSITIVE, NEG→NEGATIVE, anything else→NEUTRAL. -/
def sentimentPart (raw : PyVal) : Except PyErr (String × ℚ) :=
  let sentiment_result : PyVal :=
    match raw with
    | .plist (x :: _) => x
    | .pdict d => .pdict d
    | _ => .pdict [("label", .pstr "NEUTRAL"), ("score", .pnum (1/2))]
  match sentiment_result with
  | .pdict d => do
    let rawLabel ← pyUpper (dictGetV d "label" (.pstr "NEUTRAL"))
    let score ← pyFloat (dictGetV d "score" (.pnum (1/2)))
    let label :=
      if rawLabel = "POSITIVE" ∨ rawLabel = "POS" then "POSITIVE"
      else if rawLabel = "NEGATIVE" ∨ rawLabel = "NEG" then "NEGATIVE"
      else "NEUTRAL"
    return (label, score)
  | _ => .error .attributeError

/-- Lines 201-228: one item of a list-shaped emotion result (dict records and
(label, score) pairs; unexpected formats are skipped). -/
def emotionItemStep (acc : List (String × ℚ)) (item : PyVal) :
    Except PyErr (List (String × ℚ)) :=
  match item with
  | .pdict d => do
    let label ← pyLowerV (dictGetV d "label" (.pstr ""))
    let score := dictGetV d "score" (.pnum 0)
    if label ≠ "" then do
      let s ← pyFloat score
      return dictSetQ acc label s
    else
      return acc
  | .plist (a :: b :: _) => do
    let label := lowerStr (pyStrOf a)
    let score ← match b with
      | .pdict d2 => pyFloat (dictGetV d2 "score" (.pnum 0))
      | .pnum q => Except.ok q
      | _ => Except.ok ((floatTry b).getD 0)
    if label ≠ "" then return dictSetQ acc label score else return acc
  | _ => .ok acc

/-- Lines 239-243: one entry of a label-keyed emotion mapping. -/
def emotionDictStep (acc : List (String × ℚ)) (p : String × PyVal) :
    Except PyErr (List (String × ℚ)) :=
  match p.2 with
  | .pnum q => Except.ok (dictSetQ acc (lowerStr p.1) q)
  | .pdict d2 =>
    match d2.find? (fun q => q.1 = "score") with
    | some q => do
      let s ← pyFloat q.2
      return dictSetQ acc (lowerStr p.1) s
    | none => Except.ok acc
  | _ => Except.ok acc

/-- Lines 237-243: a label-keyed mapping of emotions (no 'label' key). -/
def emotionDictFold (d : List (String × PyVal)) : Except PyErr (List (String × ℚ)) :=
  d.foldlM emotionDictStep []

/-- Lines 198-243: normalize the emotion pipeline output into a flat mapping
from lower-cased emotion label to score. -/
def emotionScoresOf (emotion_results : PyVal) : Except PyErr (List (String × ℚ)) :=
  if truthy emotion_results then
    match emotion_results with
    | .plist items => items.foldlM emotionItemStep []
    | .pdict d =>
      if hasKey d "label" then do
        let label ← pyLowerV (dictGetV d "label" (.pstr ""))
        let score := dictGetV d "score" (.pnum 0)
        if label ≠ "" then do
          let s ← pyFloat score
          return dictSetQ [] label s
        else
          return []
      else
        emotionDictFold d
    | _ => .ok []
  else
    .ok []

/-- Lines 246-250: `max(emotion_scores, key=emotion_scores.get)` keeps the
first key attaining the maximum; `(None, 0.0)` for an empty mapping. -/
def primaryOf (scores : List (String × ℚ)) : Option String × ℚ :=
  match scores with
  | [] => (none, 0)
  | (k0, v0) :: rest =>
    let p := rest.foldl (fun best kv => if kv.2 > best.2 then kv else best) (k0, v0)
    (some p.1, p.2)

/-- The dictionary returned by `analyze_single_response` (lines 252-258). -/
structure FeatureRecord where
  sentiment_label : String
  sentiment_score : ℚ
  emotion_scores : List (String × ℚ)
  primary_emotion : Option String
  primary_emotion_score : ℚ

/-- `analyze_single_response(text)`, abstracted over the two classifier
calls: `sentiment_raw` is what `self.sentiment_pipeline(text)` returned and
`emotion_call` is the outcome of `self.emotion_pipeline(text)` (`.error` when
the classifier raised; the `try/except` at lines 189-194 turns that into the
empty list). -/
def analyze_single_response (sentiment_raw : PyVal)
    (emotion_call : Except Unit PyVal) : Except PyErr FeatureRecord := do
  let sp ← sentimentPart sentiment_raw
  let emotion_results : PyVal :=
    match emotion_call with
    | .ok v => v
    | .error _ => .plist []
  let es ← emotionScoresOf emotion_results
  let pr := primaryOf es
  return { sentiment_label := sp.1, sentiment_score := sp.2, emotion_scores := es,
           primary_emotion := pr.1, primary_emotion_score := pr.2 }

/-! Documented-shape predicates (spec §4.3/§6): labels are strings, scores
are numbers wherever the code converts them without a guard. -/

/-- Is the value a Python string? -/
def isStrV : PyVal → Bool
  | .pstr _ => true
  | _ => false

/-- Is the value a Python number? -/
def isNumV : PyVal → Bool
  | .pnum _ => true
  | _ => false

/-- A sentiment result dict whose label is a string and score a number. -/
def sentimentFieldsOk (d : List (String × PyVal)) : Bool :=
  isStrV (dictGetV d "label" (.pstr "NEUTRAL")) &&
    isNumV (dictGetV d "score" (.pnum (1/2)))

/-- Documented sentiment output shapes: a (list containing a) well-formed
result dict, or anything the fallback branch catches. -/
def sentimentShapeOk : PyVal → Bool
  | .plist (x :: _) =>
    match x with
    | .pdict d => sentimentFieldsOk d
    | _ => false
  | .pdict d => sentimentFieldsOk d
  | _ => true

/-- Shapes routed to the `{'label': 'NEUTRAL', 'score': 0.5}` fallback:
neither a nonempty list nor a dict. -/
def sentimentUnrecognized : PyVal → Bool
  | .plist (_ :: _) => false
  | .pdict _ => false
  | _ => true

/-- Documented shape of one element of a list-shaped emotion result. -/
def emotionItemOk : PyVal → Bool
  | .pdict d =>
    isStrV (dictGetV d "label" (.pstr "")) && isNumV (dictGetV d "score" (.pnum 0))
  | .plist (_ :: b :: _) =>
    match b with
    | .pdict d2 => isNumV (dictGetV d2 "score" (.pnum 0))
    | _ => true
  | _ => true

/-- Documented shape of one entry of a label-keyed emotion mapping. -/
def emotionDictEntryOk (p : String × PyVal) : Bool :=
  match p.2 with
  | .pdict d2 =>
    match d2.find? (fun q => q.1 = "score") with
    | some q => isNumV q.2
    | none => true
  | _ => true

/-- Documented emotion output shapes. -/
def emotionShapeOk : PyVal → Bool
  | .plist items => items.all emotionItemOk
  | .pdict d =>
    if hasKey d "label" then
      isStrV (dictGetV d "label" (.pstr "")) && isNumV (dictGetV d "score" (.pnum 0))
    else
      d.all emotionDictEntryOk
  | _ => true

end EQModel

namespace EQModel

/-- The validator loop agrees with finding the first failure among the
remaining responses enumerated from index `i`. -/
lemma validate_responses_from_eq (rs : List String) :
    ∀ i : ℕ, validate_responses_from i rs =
      match ((rs.enumFrom i).find? fun p => failsAt p.2) with
      | none => (true, none)
      | some (i, r) => (false, some (if isBlank r then emptyMsg i else shortMsg i r)) := by
  induction rs with
  | nil => intro i; rfl
  | cons r rest ih =>
    intro i
    by_cases hb : isBlank r
    · simp [validate_responses_from, List.enumFrom, List.find?, failsAt, hb]
    · by_cases hw : (pyWords r).length < min_words_per_response
      · simp [validate_responses_from, List.enumFrom, List.find?, failsAt, hb, hw]
      · simp [validate_responses_from, List.enumFrom, List.find?, failsAt, hb, hw, ih]

/-- **C5**: `validate_responses` is a fail-fast, all-or-nothing gate: it
reports the first empty/whitespace-only response by 1-based index, else the
first under-length response (emptiness checked first within each response)
with required vs actual word counts, else succeeds with no error; the two
concrete examples from the spec behave as stated. -/
theorem C5_validate_responses_contract :
    (∀ rs : List String, validate_responses rs = validate_spec rs) ∧
    validate_responses ["", "ten word sentence one two three four five six seven"] =
      (false, some "Answer 1 cannot be empty. Please provide a thoughtful response.") ∧
    validate_responses ["too short text"] =
      (false, some ("Answer 1 is too short. Please provide at least 10 words " ++
        "(currently 3 words). Your response should be detailed and reflective.")) := by
  refine ⟨fun rs => ?_, by decide, by decide⟩
  simpa [List.enum] using validate_responses_from_eq rs 0

/-- **C9**: validating the empty response list succeeds vacuously: there is no
set-level non-emptiness check. -/
theorem C9_validate_empty_list : validate_responses [] = (true, none) := rfl

/-- **C4**: `interpret_overall_eq` returns "Low EQ" exactly below 40,
"Average EQ" exactly on [40, 70], "High EQ" exactly above 70, and the four
boundary examples 39.99, 40.0, 70.0, 70.01 map as specified. -/
theorem C4_interpret_overall_eq_thresholds :
    (∀ s : ℚ,
      (interpret_overall_eq s = "Low EQ" ↔ s < 40) ∧
      (interpret_overall_eq s = "Average EQ" ↔ 40 ≤ s ∧ s ≤ 70) ∧
      (interpret_overall_eq s = "High EQ" ↔ 70 < s)) ∧
    interpret_overall_eq (3999/100) = "Low EQ" ∧
    interpret_overall_eq 40 = "Average EQ" ∧
    interpret_overall_eq 70 = "Average EQ" ∧
    interpret_overall_eq (7001/100) = "High EQ" := by
  refine ⟨fun s => ⟨⟨?_, ?_⟩, ⟨?_, ?_⟩, ⟨?_, ?_⟩⟩,
    by norm_num [interpret_overall_eq],
    by norm_num [interpret_overall_eq],
    by norm_num [interpret_overall_eq],
    by norm_num [interpret_overall_eq]⟩
  · intro h
    unfold interpret_overall_eq at h
    split_ifs at h with h1 h2
    · exact h1
    · exact absurd h (by decide)
    · exact absurd h (by decide)
  · intro h
    unfold interpret_overall_eq
    rw [if_pos h]
  · intro h
    unfold interpret_overall_eq at h
    split_ifs at h with h1 h2
    · exact absurd h (by decide)
    · exact ⟨le_of_not_lt h1, h2⟩
    · exact absurd h (by decide)
  · rintro ⟨ha, hb⟩
    unfold interpret_overall_eq
    rw [if_neg (not_lt.mpr ha), if_pos hb]
  · intro h
    unfold interpret_overall_eq at h
    split_ifs at h with h1 h2
    · exact absurd h (by decide)
    · exact absurd h (by decide)
    · exact lt_of_not_le h2
  · intro h
    unfold interpret_overall_eq
    rw [if_neg (by push_neg; linarith), if_neg (not_le.mpr h)]

set_option maxRecDepth 16384 in
/-- **C8**: `generate_scenario` always returns one of exactly four fixed
texts, chosen by lower-casing the profession and testing substring membership
in fixed priority order; in particular "Lead Teacher" selects the teacher
scenario, not the management one. -/
theorem C8_generate_scenario_four_texts :
    (∀ (age : ℤ) (gender profession : String),
      generate_scenario age gender profession = teacherScenario ∨
      generate_scenario age gender profession = healthcareScenario ∨
      generate_scenario age gender profession = managementScenario ∨
      generate_scenario age gender profession = genericScenario) ∧
    generate_scenario 30 "female" "Lead Teacher" = teacherScenario ∧
    generate_scenario 30 "female" "Lead Teacher" ≠ managementScenario := by
  refine ⟨fun age gender profession => ?_, by decide, by decide⟩
  simp only [generate_scenario]
  split_ifs <;> simp

/-! ## Lemmas about the scorer -/

lemma clampScore_nonneg (x : ℚ) : 0 ≤ clampScore x :=
  le_max_left 0 _

lemma clampScore_le_100 (x : ℚ) : clampScore x ≤ 100 :=
  max_le (by norm_num) (min_le_left _ _)

lemma clampScore_eq_self {x : ℚ} (h0 : 0 ≤ x) (h1 : x ≤ 100) : clampScore x = x := by
  unfold clampScore
  rw [min_eq_right h1, max_eq_right h0]

/-- Every category score produced by the code is a clamp of something. -/
lemma categoryScores_clamped (analyses : List Analysis) (d : Demographics) :
    ∃ x1 x2 x3 x4 x5 x6, categoryScores analyses d =
      ⟨clampScore x1, clampScore x2, clampScore x3,
        clampScore x4, clampScore x5, clampScore x6⟩ :=
  ⟨_, _, _, _, _, _, rfl⟩

/-- **C1**: for feature-record lists whose sentiment and emotion ratios lie in
[0,1] and any age in [10,100], all six category scores and the overall score
lie in [0,100]. -/
theorem C1_clamp_invariant (analyses : List Analysis) (a : ℚ)
    (hage1 : 10 ≤ a) (hage2 : a ≤ 100)
    (hp0 : 0 ≤ positive_ratio analyses) (hp1 : positive_ratio analyses ≤ 1)
    (hn0 : 0 ≤ negative_ratio analyses) (hn1 : negative_ratio analyses ≤ 1)
    (hu0 : 0 ≤ neutral_ratio analyses) (hu1 : neutral_ratio analyses ≤ 1)
    (he0 : ∀ label, 0 ≤ emotion_ratio analyses label)
    (he1 : ∀ label, emotion_ratio analyses label ≤ 1) :
    (0 ≤ (calculate_eq_scores analyses ⟨some a⟩).1.self_awareness ∧
        (calculate_eq_scores analyses ⟨some a⟩).1.self_awareness ≤ 100) ∧
    (0 ≤ (calculate_eq_scores analyses ⟨some a⟩).1.emotional_resilience ∧
        (calculate_eq_scores analyses ⟨some a⟩).1.emotional_resilience ≤ 100) ∧
    (0 ≤ (calculate_eq_scores analyses ⟨some a⟩).1.conflict_resolution ∧
        (calculate_eq_scores analyses ⟨some a⟩).1.conflict_resolution ≤ 100) ∧
    (0 ≤ (calculate_eq_scores analyses ⟨some a⟩).1.cultural_awareness ∧
        (calculate_eq_scores analyses ⟨some a⟩).1.cultural_awareness ≤ 100) ∧
    (0 ≤ (calculate_eq_scores analyses ⟨some a⟩).1.empathy ∧
        (calculate_eq_scores analyses ⟨some a⟩).1.empathy ≤ 100) ∧
    (0 ≤ (calculate_eq_scores analyses ⟨some a⟩).1.stress_management ∧
        (calculate_eq_scores analyses ⟨some a⟩).1.stress_management ≤ 100) ∧
    (0 ≤ (calculate_eq_scores analyses ⟨some a⟩).2 ∧
        (calculate_eq_scores analyses ⟨some a⟩).2 ≤ 100) := by
  obtain ⟨x1, x2, x3, x4, x5, x6, hc⟩ := categoryScores_clamped analyses ⟨some a⟩
  have h1 : (calculate_eq_scores analyses ⟨some a⟩).1 = categoryScores analyses ⟨some a⟩ := rfl
  have h2 : (calculate_eq_scores analyses ⟨some a⟩).2 =
      overallOf (categoryScores analyses ⟨some a⟩) := rfl
  have hov : overallOf (⟨clampScore x1, clampScore x2, clampScore x3, clampScore x4,
      clampScore x5, clampScore x6⟩ : CategoryScores) =
      (clampScore x1 + clampScore x2 + clampScore x3 + clampScore x4 +
        clampScore x5 + clampScore x6) / 6 := rfl
  rw [h1, h2, hc, hov]
  refine ⟨⟨clampScore_nonneg _, clampScore_le_100 _⟩, ⟨clampScore_nonneg _, clampScore_le_100 _⟩,
    ⟨clampScore_nonneg _, clampScore_le_100 _⟩, ⟨clampScore_nonneg _, clampScore_le_100 _⟩,
    ⟨clampScore_nonneg _, clampScore_le_100 _⟩, ⟨clampScore_nonneg _, clampScore_le_100 _⟩,
    ?_, ?_⟩
  · have := clampScore_nonneg x1
    have := clampScore_nonneg x2
    have := clampScore_nonneg x3
    have := clampScore_nonneg x4
    have := clampScore_nonneg x5
    have := clampScore_nonneg x6
    linarith
  · have := clampScore_le_100 x1
    have := clampScore_le_100 x2
    have := clampScore_le_100 x3
    have := clampScore_le_100 x4
    have := clampScore_le_100 x5
    have := clampScore_le_100 x6
    linarith

/-- Witness for C1 at the empty record list and age 30. -/
theorem C1_clamp_invariant_witness :
    (10 : ℚ) ≤ 30 ∧ (30 : ℚ) ≤ 100 ∧ positive_ratio [] = 33/100 ∧
    (0 ≤ (calculate_eq_scores [] ⟨some 30⟩).2 ∧
      (calculate_eq_scores [] ⟨some 30⟩).2 ≤ 100) := by
  have hpr : positive_ratio [] = 33/100 := by norm_num [positive_ratio, sentTotals]
  have hnr : negative_ratio [] = 33/100 := by norm_num [negative_ratio, sentTotals]
  have hur : neutral_ratio [] = 33/100 := by norm_num [neutral_ratio, sentTotals]
  have her : ∀ label, emotion_ratio [] label = 0 := fun _ => rfl
  have h := C1_clamp_invariant [] 30 (by norm_num) (by norm_num)
    (by rw [hpr]; norm_num) (by rw [hpr]; norm_num)
    (by rw [hnr]; norm_num) (by rw [hnr]; norm_num)
    (by rw [hur]; norm_num) (by rw [hur]; norm_num)
    (fun label => by rw [her]) (fun label => by rw [her]; norm_num)
  exact ⟨by norm_num, by norm_num, hpr, h.2.2.2.2.2.2⟩

/-- **C2**: `calculate_eq_scores` computes the six category scores exactly by
the spec formulas (base 50 plus 50 times the linear combination, with
`age_factor = min(1, age/60)` adjustments of +5·af on emotional resilience
and +3·af on stress management added before clamping to [0,100]), and the
overall score is the unweighted mean of the six clamped category scores. -/
theorem C2_score_formulas (analyses : List Analysis) (a : ℚ) :
    calculate_eq_scores analyses ⟨some a⟩ =
      (spec_category_scores (positive_ratio analyses) (negative_ratio analyses)
          (neutral_ratio analyses) (emotion_ratio analyses "joy")
          (emotion_ratio analyses "love") (emotion_ratio analyses "sadness")
          (emotion_ratio analyses "anger") (emotion_ratio analyses "fear")
          (emotion_ratio analyses "disgust") (min 1 (a / 60)),
        ((spec_category_scores (positive_ratio analyses) (negative_ratio analyses)
          (neutral_ratio analyses) (emotion_ratio analyses "joy")
          (emotion_ratio analyses "love") (emotion_ratio analyses "sadness")
          (emotion_ratio analyses "anger") (emotion_ratio analyses "fear")
          (emotion_ratio analyses "disgust") (min 1 (a / 60))).self_awareness +
         (spec_category_scores (positive_ratio analyses) (negative_ratio analyses)
          (neutral_ratio analyses) (emotion_ratio analyses "joy")
          (emotion_ratio analyses "love") (emotion_ratio analyses "sadness")
          (emotion_ratio analyses "anger") (emotion_ratio analyses "fear")
          (emotion_ratio analyses "disgust") (min 1 (a / 60))).emotional_resilience +
         (spec_category_scores (positive_ratio analyses) (negative_ratio analyses)
          (neutral_ratio analyses) (emotion_ratio analyses "joy")
          (emotion_ratio analyses "love") (emotion_ratio analyses "sadness")
          (emotion_ratio analyses "anger") (emotion_ratio analyses "fear")
          (emotion_ratio analyses "disgust") (min 1 (a / 60))).conflict_resolution +
         (spec_category_scores (positive_ratio analyses) (negative_ratio analyses)
          (neutral_ratio analyses) (emotion_ratio analyses "joy")
          (emotion_ratio analyses "love") (emotion_ratio analyses "sadness")
          (emotion_ratio analyses "anger") (emotion_ratio analyses "fear")
          (emotion_ratio analyses "disgust") (min 1 (a / 60))).cultural_awareness +
         (spec_category_scores (positive_ratio analyses) (negative_ratio analyses)
          (neutral_ratio analyses) (emotion_ratio analyses "joy")
          (emotion_ratio analyses "love") (emotion_ratio analyses "sadness")
          (emotion_ratio analyses "anger") (emotion_ratio analyses "fear")
          (emotion_ratio analyses "disgust") (min 1 (a / 60))).empathy +
         (spec_category_scores (positive_ratio analyses) (negative_ratio analyses)
          (neutral_ratio analyses) (emotion_ratio analyses "joy")
          (emotion_ratio analyses "love") (emotion_ratio analyses "sadness")
          (emotion_ratio analyses "anger") (emotion_ratio analyses "fear")
          (emotion_ratio analyses "disgust") (min 1 (a / 60))).stress_management) / 6) := by
  have hX : categoryScores analyses ⟨some a⟩ =
      spec_category_scores (positive_ratio analyses) (negative_ratio analyses)
        (neutral_ratio analyses) (emotion_ratio analyses "joy")
        (emotion_ratio analyses "love") (emotion_ratio analyses "sadness")
        (emotion_ratio analyses "anger") (emotion_ratio analyses "fear")
        (emotion_ratio analyses "disgust") (min 1 (a / 60)) := by
    simp only [categoryScores, spec_category_scores, ageFactor, Option.getD_some]
    rw [CategoryScores.mk.injEq]
    refine ⟨?_, ?_, ?_, ?_, ?_, ?_⟩ <;> first | rfl | (congr 1; ring)
  show (categoryScores analyses ⟨some a⟩, overallOf (categoryScores analyses ⟨some a⟩)) = _
  rw [hX]
  rfl

/-- **C10**: with no 'age' key in the demographics, the age defaults to 30:
the age factor is 0.5, the pre-clamp adjustments become +2.5 on emotional
resilience and +1.5 on stress management, and the whole result agrees with an
explicit age of 30. -/
theorem C10_age_defaults_to_30 :
    ageFactor ⟨none⟩ = 1/2 ∧
    ageFactor ⟨none⟩ * 5 = 5/2 ∧
    ageFactor ⟨none⟩ * 3 = 3/2 ∧
    (∀ analyses : List Analysis,
      (categoryScores analyses ⟨none⟩).emotional_resilience =
        clampScore (50 + 50 * (positive_ratio analyses - negative_ratio analyses -
          emotion_ratio analyses "fear" * (1/2)) + 5/2)) ∧
    (∀ analyses : List Analysis,
      (categoryScores analyses ⟨none⟩).stress_management =
        clampScore (50 + 50 * (positive_ratio analyses - emotion_ratio analyses "fear" -
          emotion_ratio analyses "anger") + 3/2)) ∧
    (∀ analyses : List Analysis,
      calculate_eq_scores analyses ⟨none⟩ = calculate_eq_scores analyses ⟨some 30⟩) := by
  have h : ageFactor ⟨none⟩ = 1/2 := by
    norm_num [ageFactor, Option.getD, min_def]
  refine ⟨h, by rw [h]; norm_num, by rw [h]; norm_num, fun analyses => ?_, fun analyses => ?_,
    fun analyses => rfl⟩
  · show clampScore (50 + 50 * (positive_ratio analyses - negative_ratio analyses -
        emotion_ratio analyses "fear" * (1/2)) + ageFactor ⟨none⟩ * 5) = _
    rw [h]
    norm_num
  · show clampScore (50 + 50 * (positive_ratio analyses - emotion_ratio analyses "fear" -
        emotion_ratio analyses "anger") + ageFactor ⟨none⟩ * 3) = _
    rw [h]
    norm_num

/-! ## Lemmas about the aggregation, used by C3 and C7 -/

/-- When every record carries an empty emotion dict, the aggregated totals
stay at the fold's initial dict. -/
lemma emotionTotals_of_all_empty {analyses : List Analysis}
    (h : ∀ r ∈ analyses, r.emotion_scores = []) : emotionTotals analyses = [] := by
  unfold emotionTotals
  induction analyses with
  | nil => rfl
  | cons r rest ih =>
    have hr : r.emotion_scores = [] := h r (by simp)
    simp only [List.foldl_cons, hr, List.foldl_nil]
    exact ih (fun x hx => h x (by simp [hx]))

/-- Sentiment totals over all-NEUTRAL records: positive and negative buckets
stay at their initial values, the neutral bucket accumulates every score. -/
lemma sentTotals_of_all_neutral {analyses : List Analysis}
    (h : ∀ r ∈ analyses, r.sentiment_label = "NEUTRAL") :
    ∀ t : SentTotals, analyses.foldl sentStep t =
      ⟨t.pos, t.neg, t.neu + (analyses.map (fun r => r.sentiment_score)).sum,
        t.count + analyses.length⟩ := by
  induction analyses with
  | nil => intro t; simp
  | cons r rest ih =>
    intro t
    have hr : r.sentiment_label = "NEUTRAL" := h r (by simp)
    have hstep : sentStep t r = ⟨t.pos, t.neg, t.neu + r.sentiment_score, t.count + 1⟩ := by
      simp only [sentStep, hr]
      rw [if_neg (show ¬("NEUTRAL" = "POSITIVE") by decide),
        if_neg (show ¬("NEUTRAL" = "NEGATIVE") by decide)]
    rw [List.foldl_cons, hstep, ih (fun x hx => h x (by simp [hx]))]
    simp only [List.map_cons, List.sum_cons, List.length_cons, SentTotals.mk.injEq]
    exact ⟨trivial, trivial, by ring, by omega⟩

/-- With every record's emotion dict empty, every downstream emotion-ratio
lookup is 0. -/
lemma emotion_ratio_of_all_empty {analyses : List Analysis}
    (hemo : ∀ r ∈ analyses, r.emotion_scores = []) :
    ∀ label, emotion_ratio analyses label = 0 := by
  intro label
  unfold emotion_ratio emotionRatios
  rw [emotionTotals_of_all_empty hemo]
  norm_num [emotionRatiosOf, valuesSum, dictGetQ]

/-- Evaluation of `calculate_eq_scores` on records that all have empty
emotion dicts and NEUTRAL sentiment: four categories are a clamped 50-ish
base, `cultural_awareness` keeps the `50·neutral_ratio` term, and only the
two age-sensitive categories receive the age adjustment. -/
lemma calculate_eq_scores_all_neutral (analyses : List Analysis) (d : Demographics)
    (hne : analyses ≠ [])
    (hemo : ∀ r ∈ analyses, r.emotion_scores = [])
    (hlab : ∀ r ∈ analyses, r.sentiment_label = "NEUTRAL") :
    calculate_eq_scores analyses d =
      ({ self_awareness := 50
         emotional_resilience := clampScore (50 + ageFactor d * 5)
         conflict_resolution := 50
         cultural_awareness := clampScore (50 + 50 * neutral_ratio analyses)
         empathy := 50
         stress_management := clampScore (50 + ageFactor d * 3) },
        (50 + clampScore (50 + ageFactor d * 5) + 50 +
          clampScore (50 + 50 * neutral_ratio analyses) + 50 +
          clampScore (50 + ageFactor d * 3)) / 6) := by
  have h0 := emotion_ratio_of_all_empty hemo
  have hN : 0 < analyses.length := List.length_pos.mpr hne
  have hst : sentTotals analyses =
      ⟨0, 0, (analyses.map (fun r => r.sentiment_score)).sum, analyses.length⟩ := by
    have := sentTotals_of_all_neutral hlab ⟨0, 0, 0, 0⟩
    simpa [sentTotals] using this
  have hpos : positive_ratio analyses = 0 := by
    unfold positive_ratio
    rw [hst]
    simp [hN, zero_div]
  have hneg : negative_ratio analyses = 0 := by
    unfold negative_ratio
    rw [hst]
    simp [hN, zero_div]
  have hc50 : clampScore 50 = 50 := clampScore_eq_self (by norm_num) (by norm_num)
  simp only [calculate_eq_scores, categoryScores, overallOf, h0, hpos, hneg]
  norm_num [Prod.mk.injEq, CategoryScores.mk.injEq, hc50]

/-- **C7 counterexample**: a single record with empty emotions, NEUTRAL label
and sentiment score 0.5, at age 30: the overall score is 329/6 ≈ 54.83, not
the claimed "50 plus the age adjustment on the two age-sensitive categories"
(which would be 304/6 ≈ 50.67), because `cultural_awareness` picks up
`50 · neutral_ratio = 25`. -/
theorem C7_counterexample :
    (calculate_eq_scores [⟨"NEUTRAL", 1/2, []⟩] ⟨some 30⟩).2 = 329/6 ∧
    (329 : ℚ)/6 ≠ (50 + (50 + ageFactor ⟨some 30⟩ * 5) + 50 + 50 + 50 +
      (50 + ageFactor ⟨some 30⟩ * 3)) / 6 := by
  have haf : ageFactor ⟨some 30⟩ = 1/2 := by
    norm_num [ageFactor, Option.getD_some, min_def]
  have hnr : neutral_ratio [(⟨"NEUTRAL", 1/2, []⟩ : Analysis)] = 1/2 := by
    have hst := @sentTotals_of_all_neutral [⟨"NEUTRAL", 1/2, []⟩]
      (by intro r hr; rw [List.mem_singleton] at hr; rw [hr]) ⟨0, 0, 0, 0⟩
    unfold neutral_ratio sentTotals
    rw [hst]
    norm_num
  have h := calculate_eq_scores_all_neutral [⟨"NEUTRAL", 1/2, []⟩] ⟨some 30⟩
    (by simp)
    (by intro r hr; rw [List.mem_singleton] at hr; rw [hr])
    (by intro r hr; rw [List.mem_singleton] at hr; rw [hr])
  constructor
  · rw [h]
    dsimp only
    rw [hnr, haf]
    norm_num [clampScore, min_def, max_def]
  · rw [haf]
    norm_num

/-- **C7 amended**: with every record carrying an empty emotion mapping and
NEUTRAL sentiment (scores in [0,1]), all emotion-derived ratios are 0 and the
overall score is exactly 50 + (8·age_factor + 50·neutral_ratio)/6: four
category scores equal 50, the two age-sensitive ones get the age adjustment,
and `cultural_awareness` equals 50 + 50·neutral_ratio (no clamp binds). -/
theorem C7_amended_neutral_baseline (analyses : List Analysis) (a : ℚ)
    (hne : analyses ≠ [])
    (hemo : ∀ r ∈ analyses, r.emotion_scores = [])
    (hlab : ∀ r ∈ analyses, r.sentiment_label = "NEUTRAL")
    (hs0 : ∀ r ∈ analyses, 0 ≤ r.sentiment_score)
    (hs1 : ∀ r ∈ analyses, r.sentiment_score ≤ 1)
    (ha : 0 ≤ a) :
    (∀ label, emotion_ratio analyses label = 0) ∧
    calculate_eq_scores analyses ⟨some a⟩ =
      ({ self_awareness := 50
         emotional_resilience := 50 + ageFactor ⟨some a⟩ * 5
         conflict_resolution := 50
         cultural_awareness := 50 + 50 * neutral_ratio analyses
         empathy := 50
         stress_management := 50 + ageFactor ⟨some a⟩ * 3 },
        50 + (ageFactor ⟨some a⟩ * 8 + 50 * neutral_ratio analyses) / 6) := by
  have haf0 : 0 ≤ ageFactor ⟨some a⟩ := by
    unfold ageFactor
    exact le_min (by norm_num) (by positivity)
  have haf1 : ageFactor ⟨some a⟩ ≤ 1 := min_le_left _ _
  have hN : 0 < analyses.length := List.length_pos.mpr hne
  have hst : sentTotals analyses =
      ⟨0, 0, (analyses.map (fun r => r.sentiment_score)).sum, analyses.length⟩ := by
    have := sentTotals_of_all_neutral hlab ⟨0, 0, 0, 0⟩
    simpa [sentTotals] using this
  have hsum0 : 0 ≤ (analyses.map (fun r => r.sentiment_score)).sum :=
    List.sum_nonneg (by
      intro x hx
      obtain ⟨r, hr, hrx⟩ := List.mem_map.mp hx
      exact hrx ▸ hs0 r hr)
  have hsum1 : (analyses.map (fun r => r.sentiment_score)).sum ≤ analyses.length := by
    have := List.sum_le_card_nsmul (analyses.map (fun r => r.sentiment_score)) 1 (by
      intro x hx
      obtain ⟨r, hr, hrx⟩ := List.mem_map.mp hx
      exact hrx ▸ hs1 r hr)
    simpa [nsmul_eq_mul] using this
  have hnr0 : 0 ≤ neutral_ratio analyses := by
    unfold neutral_ratio
    rw [hst]
    simp only [hN, if_pos]
    positivity
  have hnr1 : neutral_ratio analyses ≤ 1 := by
    unfold neutral_ratio
    rw [hst]
    simp only [hN, if_pos]
    rw [div_le_one (by exact_mod_cast hN)]
    exact hsum1
  have h := calculate_eq_scores_all_neutral analyses ⟨some a⟩ hne hemo hlab
  have hcr : clampScore (50 + ageFactor ⟨some a⟩ * 5) = 50 + ageFactor ⟨some a⟩ * 5 :=
    clampScore_eq_self (by linarith) (by linarith)
  have hcs : clampScore (50 + ageFactor ⟨some a⟩ * 3) = 50 + ageFactor ⟨some a⟩ * 3 :=
    clampScore_eq_self (by linarith) (by linarith)
  have hcn : clampScore (50 + 50 * neutral_ratio analyses) =
      50 + 50 * neutral_ratio analyses :=
    clampScore_eq_self (by linarith) (by linarith)
  refine ⟨emotion_ratio_of_all_empty hemo, ?_⟩
  rw [h, hcr, hcs, hcn, Prod.mk.injEq]
  exact ⟨rfl, by ring⟩

/-- Witness for the amended C7 at one NEUTRAL record of score 0.5 and age 30. -/
theorem C7_amended_neutral_baseline_witness :
    emotion_ratio [(⟨"NEUTRAL", 1/2, []⟩ : Analysis)] "joy" = 0 ∧
    calculate_eq_scores [⟨"NEUTRAL", 1/2, []⟩] ⟨some 30⟩ =
      ({ self_awareness := 50
         emotional_resilience := 50 + ageFactor ⟨some 30⟩ * 5
         conflict_resolution := 50
         cultural_awareness := 50 + 50 * neutral_ratio [(⟨"NEUTRAL", 1/2, []⟩ : Analysis)]
         empathy := 50
         stress_management := 50 + ageFactor ⟨some 30⟩ * 3 },
        50 + (ageFactor ⟨some 30⟩ * 8 +
          50 * neutral_ratio [(⟨"NEUTRAL", 1/2, []⟩ : Analysis)]) / 6) := by
  have h := C7_amended_neutral_baseline [⟨"NEUTRAL", 1/2, []⟩] 30
    (by simp)
    (by intro r hr; rw [List.mem_singleton] at hr; rw [hr])
    (by intro r hr; rw [List.mem_singleton] at hr; rw [hr])
    (by intro r hr; rw [List.mem_singleton] at hr; rw [hr]; norm_num)
    (by intro r hr; rw [List.mem_singleton] at hr; rw [hr]; norm_num)
    (by norm_num)
  exact ⟨h.1 "joy", h.2⟩


/-! ## Dict lemmas for the emotion-totals fold (C3) -/

lemma addEmotion_cons_pos {a l : String} (b s : ℚ) (rest : List (String × ℚ)) (h : a = l) :
    addEmotion ((a, b) :: rest) l s = (a, b + s) :: rest := by
  simp [addEmotion, h]

lemma addEmotion_cons_neg {a l : String} (b s : ℚ) (rest : List (String × ℚ)) (h : ¬a = l) :
    addEmotion ((a, b) :: rest) l s = (a, b) :: addEmotion rest l s := by
  simp [addEmotion, h]

lemma dictGetQ_addEmotion (t : List (String × ℚ)) (l : String) (s : ℚ) (k : String) :
    dictGetQ (addEmotion t l s) k = dictGetQ t k + (if k = l then s else 0) := by
  induction t with
  | nil =>
    by_cases h : k = l
    · subst h
      simp [addEmotion, dictGetQ]
    · have h' : ¬l = k := fun hh => h hh.symm
      simp [addEmotion, dictGetQ, h, h']
  | cons p rest ih =>
    obtain ⟨a, b⟩ := p
    by_cases hal : a = l
    · rw [addEmotion_cons_pos b s rest hal]
      by_cases hak : a = k
      · subst hak
        simp [dictGetQ, hal]
      · have hka : ¬k = a := fun hh => hak hh.symm
        have hkl : ¬k = l := fun hh => hak (hal.trans hh.symm)
        simp [dictGetQ, hak, hka, hkl]
    · rw [addEmotion_cons_neg b s rest hal]
      by_cases hak : a = k
      · subst hak
        simp [dictGetQ, hal]
      · simp [dictGetQ, hak, ih]

lemma valuesSum_addEmotion (t : List (String × ℚ)) (l : String) (s : ℚ) :
    valuesSum (addEmotion t l s) = valuesSum t + s := by
  induction t with
  | nil => simp [addEmotion, valuesSum]
  | cons p rest ih =>
    obtain ⟨a, b⟩ := p
    by_cases hal : a = l
    · rw [addEmotion_cons_pos b s rest hal]
      simp [valuesSum]
      ring
    · rw [addEmotion_cons_neg b s rest hal]
      simp only [valuesSum, List.map_cons, List.sum_cons] at ih ⊢
      rw [ih]
      ring

lemma mem_keys_addEmotion (t : List (String × ℚ)) (l : String) (s : ℚ) (k : String) :
    k ∈ (addEmotion t l s).map Prod.fst ↔ k ∈ t.map Prod.fst ∨ k = l := by
  induction t with
  | nil => simp [addEmotion]
  | cons p rest ih =>
    obtain ⟨a, b⟩ := p
    by_cases hal : a = l
    · rw [addEmotion_cons_pos b s rest hal]
      subst hal
      simp
      tauto
    · rw [addEmotion_cons_neg b s rest hal]
      simp [ih]
      tauto

lemma nodup_keys_addEmotion {t : List (String × ℚ)} (l : String) (s : ℚ)
    (h : (t.map Prod.fst).Nodup) : ((addEmotion t l s).map Prod.fst).Nodup := by
  induction t with
  | nil => simp [addEmotion]
  | cons p rest ih =>
    obtain ⟨a, b⟩ := p
    simp only [List.map_cons, List.nodup_cons] at h
    by_cases hal : a = l
    · rw [addEmotion_cons_pos b s rest hal]
      simp only [List.map_cons, List.nodup_cons]
      exact h
    · rw [addEmotion_cons_neg b s rest hal]
      simp only [List.map_cons, List.nodup_cons]
      refine ⟨?_, ih h.2⟩
      rw [mem_keys_addEmotion]
      rintro (hmem | rfl)
      · exact h.1 hmem
      · exact hal rfl

/-! Inner fold: one record's emotion dict merged into the running totals. -/

lemma dictGetQ_entries_fold (es : List (String × ℚ)) (k : String) :
    ∀ t0 : List (String × ℚ),
      dictGetQ (es.foldl (fun t p => addEmotion t p.1 p.2) t0) k =
        dictGetQ t0 k + ((es.filter (fun p => p.1 = k)).map Prod.snd).sum := by
  induction es with
  | nil => intro t0; simp
  | cons p ps ih =>
    intro t0
    rw [List.foldl_cons, ih, dictGetQ_addEmotion]
    by_cases h : p.1 = k
    · rw [if_pos h.symm, List.filter_cons, if_pos (by simpa using h),
        List.map_cons, List.sum_cons]
      ring
    · have h' : ¬k = p.1 := fun hh => h hh.symm
      rw [if_neg h', List.filter_cons, if_neg (by simpa using h)]
      ring

lemma valuesSum_entries_fold (es : List (String × ℚ)) :
    ∀ t0 : List (String × ℚ),
      valuesSum (es.foldl (fun t p => addEmotion t p.1 p.2) t0) =
        valuesSum t0 + (es.map Prod.snd).sum := by
  induction es with
  | nil => intro t0; simp
  | cons p ps ih =>
    intro t0
    rw [List.foldl_cons, ih, valuesSum_addEmotion]
    simp only [List.map_cons, List.sum_cons]
    ring

lemma mem_keys_entries_fold (es : List (String × ℚ)) (k : String) :
    ∀ t0 : List (String × ℚ),
      (k ∈ (es.foldl (fun t p => addEmotion t p.1 p.2) t0).map Prod.fst ↔
        k ∈ t0.map Prod.fst ∨ ∃ p ∈ es, p.1 = k) := by
  induction es with
  | nil => intro t0; simp
  | cons p ps ih =>
    intro t0
    rw [List.foldl_cons, ih, mem_keys_addEmotion]
    constructor
    · rintro ((h | rfl) | ⟨q, hq, rfl⟩)
      · exact Or.inl h
      · exact Or.inr ⟨p, by simp⟩
      · exact Or.inr ⟨q, by simp [hq]⟩
    · rintro (h | ⟨q, hq, rfl⟩)
      · exact Or.inl (Or.inl h)
      · rcases List.mem_cons.mp hq with rfl | hq'
        · exact Or.inl (Or.inr rfl)
        · exact Or.inr ⟨q, hq', rfl⟩

lemma nodup_keys_entries_fold (es : List (String × ℚ)) :
    ∀ t0 : List (String × ℚ), (t0.map Prod.fst).Nodup →
      ((es.foldl (fun t p => addEmotion t p.1 p.2) t0).map Prod.fst).Nodup := by
  induction es with
  | nil => intro t0 h; simpa using h
  | cons p ps ih =>
    intro t0 h
    rw [List.foldl_cons]
    exact ih _ (nodup_keys_addEmotion p.1 p.2 h)

/-! Outer fold: all records merged, starting from the empty dict. -/

lemma dictGetQ_emotionTotals (analyses : List Analysis) (k : String) :
    dictGetQ (emotionTotals analyses) k = specEmotionTotal analyses k := by
  unfold emotionTotals specEmotionTotal
  suffices h : ∀ t0 : List (String × ℚ),
      dictGetQ (analyses.foldl
        (fun t a => a.emotion_scores.foldl (fun t2 p => addEmotion t2 p.1 p.2) t) t0) k =
      dictGetQ t0 k + (analyses.map (fun a =>
        ((a.emotion_scores.filter (fun p => p.1 = k)).map Prod.snd).sum)).sum by
    simpa [dictGetQ] using h []
  induction analyses with
  | nil => intro t0; simp
  | cons r rest ih =>
    intro t0
    rw [List.foldl_cons, ih, dictGetQ_entries_fold, List.map_cons, List.sum_cons]
    ring

lemma valuesSum_emotionTotals (analyses : List Analysis) :
    valuesSum (emotionTotals analyses) = specGrandTotal analyses := by
  unfold emotionTotals specGrandTotal
  suffices h : ∀ t0 : List (String × ℚ),
      valuesSum (analyses.foldl
        (fun t a => a.emotion_scores.foldl (fun t2 p => addEmotion t2 p.1 p.2) t) t0) =
      valuesSum t0 + (analyses.map (fun a => (a.emotion_scores.map Prod.snd).sum)).sum by
    simpa [valuesSum] using h []
  induction analyses with
  | nil => intro t0; simp
  | cons r rest ih =>
    intro t0
    rw [List.foldl_cons, ih, valuesSum_entries_fold, List.map_cons, List.sum_cons]
    ring

lemma mem_keys_emotionTotals (analyses : List Analysis) (k : String) :
    k ∈ (emotionTotals analyses).map Prod.fst ↔
      ∃ r ∈ analyses, ∃ p ∈ r.emotion_scores, p.1 = k := by
  unfold emotionTotals
  suffices h : ∀ t0 : List (String × ℚ),
      (k ∈ (analyses.foldl
        (fun t a => a.emotion_scores.foldl (fun t2 p => addEmotion t2 p.1 p.2) t) t0).map
          Prod.fst ↔
        k ∈ t0.map Prod.fst ∨ ∃ r ∈ analyses, ∃ p ∈ r.emotion_scores, p.1 = k) by
    simpa using h []
  induction analyses with
  | nil => intro t0; simp
  | cons r rest ih =>
    intro t0
    rw [List.foldl_cons, ih, mem_keys_entries_fold]
    constructor
    · rintro ((h | h) | h)
      · exact Or.inl h
      · exact Or.inr ⟨r, by simp, h⟩
      · obtain ⟨q, hq, hp⟩ := h
        exact Or.inr ⟨q, by simp [hq], hp⟩
    · rintro (h | ⟨q, hq, hp⟩)
      · exact Or.inl (Or.inl h)
      · rcases List.mem_cons.mp hq with rfl | hq2
        · exact Or.inl (Or.inr hp)
        · exact Or.inr ⟨q, hq2, hp⟩

lemma nodup_keys_emotionTotals (analyses : List Analysis) :
    ((emotionTotals analyses).map Prod.fst).Nodup := by
  unfold emotionTotals
  suffices h : ∀ t0 : List (String × ℚ), (t0.map Prod.fst).Nodup →
      ((analyses.foldl
        (fun t a => a.emotion_scores.foldl (fun t2 p => addEmotion t2 p.1 p.2) t) t0).map
          Prod.fst).Nodup by
    exact h [] (by simp)
  induction analyses with
  | nil => intro t0 h; simpa using h
  | cons r rest ih =>
    intro t0 h
    rw [List.foldl_cons]
    exact ih _ (nodup_keys_entries_fold _ _ h)

/-! Lookups in the ratio dict built from the totals. -/

lemma dictGetQ_map_div (t : List (String × ℚ)) (c : ℚ) (k : String) :
    dictGetQ (t.map (fun p => (p.1, p.2 / c))) k = dictGetQ t k / c := by
  induction t with
  | nil => simp [dictGetQ]
  | cons p rest ih =>
    by_cases h : p.1 = k <;> simp [dictGetQ, h, ih]

lemma dictGetQ_map_const (t : List (String × ℚ)) (c : ℚ) (k : String) :
    dictGetQ (t.map (fun p => (p.1, c))) k =
      if k ∈ t.map Prod.fst then c else 0 := by
  induction t with
  | nil => simp [dictGetQ]
  | cons p rest ih =>
    by_cases h : p.1 = k
    · simp only [List.map_cons, dictGetQ, if_pos h]
      rw [if_pos (by simp [h.symm])]
    · have h2 : ¬k = p.1 := fun hh => h hh.symm
      simp only [List.map_cons, dictGetQ, if_neg h, ih]
      by_cases hm : k ∈ rest.map Prod.fst
      · rw [if_pos hm, if_pos (by simp [hm])]
      · rw [if_neg hm, if_neg (by simp [h2, hm])]

/-! Sentiment aggregation as filtered sums (C3). -/

lemma specSentimentSum_cons (r : Analysis) (rest : List Analysis) (label : String) :
    specSentimentSum (r :: rest) label =
      (if r.sentiment_label = label then r.sentiment_score else 0) +
        specSentimentSum rest label := by
  unfold specSentimentSum
  by_cases h : r.sentiment_label = label
  · rw [List.filter_cons, if_pos (by simpa using h), List.map_cons, List.sum_cons, if_pos h]
  · rw [List.filter_cons, if_neg (by simpa using h), if_neg h, zero_add]

lemma codeNeutralSum_cons (r : Analysis) (rest : List Analysis) :
    codeNeutralSum (r :: rest) =
      (if ¬r.sentiment_label = "POSITIVE" ∧ ¬r.sentiment_label = "NEGATIVE"
        then r.sentiment_score else 0) + codeNeutralSum rest := by
  unfold codeNeutralSum
  by_cases h : ¬r.sentiment_label = "POSITIVE" ∧ ¬r.sentiment_label = "NEGATIVE"
  · rw [List.filter_cons, if_pos (by simpa using h), List.map_cons, List.sum_cons, if_pos h]
  · rw [List.filter_cons, if_neg (by simpa using h), if_neg h, zero_add]

lemma sentTotals_eq (analyses : List Analysis) :
    sentTotals analyses =
      ⟨specSentimentSum analyses "POSITIVE", specSentimentSum analyses "NEGATIVE",
        codeNeutralSum analyses, analyses.length⟩ := by
  unfold sentTotals
  suffices h : ∀ t : SentTotals, analyses.foldl sentStep t =
      ⟨t.pos + specSentimentSum analyses "POSITIVE",
        t.neg + specSentimentSum analyses "NEGATIVE",
        t.neu + codeNeutralSum analyses, t.count + analyses.length⟩ by
    have h0 := h ⟨0, 0, 0, 0⟩
    simpa using h0
  induction analyses with
  | nil => intro t; simp [specSentimentSum, codeNeutralSum]
  | cons r rest ih =>
    intro t
    rw [List.foldl_cons, ih, specSentimentSum_cons, specSentimentSum_cons,
      codeNeutralSum_cons, List.length_cons]
    by_cases hp : r.sentiment_label = "POSITIVE"
    · have hn : ¬r.sentiment_label = "NEGATIVE" := by rw [hp]; decide
      have hstep : sentStep t r = ⟨t.pos + r.sentiment_score, t.neg, t.neu, t.count + 1⟩ := by
        simp [sentStep, hp]
      rw [hstep]
      simp only [SentTotals.mk.injEq]
      refine ⟨by rw [if_pos hp]; ring, by rw [if_neg hn]; ring,
        by rw [if_neg (fun hh => hh.1 hp)]; ring, by omega⟩
    · by_cases hn : r.sentiment_label = "NEGATIVE"
      · have hstep : sentStep t r = ⟨t.pos, t.neg + r.sentiment_score, t.neu, t.count + 1⟩ := by
          simp [sentStep, hp, hn]
        rw [hstep]
        simp only [SentTotals.mk.injEq]
        refine ⟨by rw [if_neg hp]; ring, by rw [if_pos hn]; ring,
          by rw [if_neg (fun hh => hh.2 hn)]; ring, by omega⟩
      · have hstep : sentStep t r = ⟨t.pos, t.neg, t.neu + r.sentiment_score, t.count + 1⟩ := by
          simp [sentStep, hp, hn]
        rw [hstep]
        simp only [SentTotals.mk.injEq]
        refine ⟨by rw [if_neg hp]; ring, by rw [if_neg hn]; ring,
          by rw [if_pos ⟨hp, hn⟩]; ring, by omega⟩

/-- When every label is one of the three canonical ones, the code's `else`
bucket is exactly the NEUTRAL-labelled sum. -/
lemma codeNeutralSum_eq (analyses : List Analysis)
    (hlab : ∀ r ∈ analyses, r.sentiment_label = "POSITIVE" ∨
      r.sentiment_label = "NEGATIVE" ∨ r.sentiment_label = "NEUTRAL") :
    codeNeutralSum analyses = specSentimentSum analyses "NEUTRAL" := by
  induction analyses with
  | nil => rfl
  | cons r rest ih =>
    have hrest := ih fun x hx => hlab x (by simp [hx])
    rw [codeNeutralSum_cons, specSentimentSum_cons, hrest]
    rcases hlab r (by simp) with hr | hr | hr
    · rw [if_neg (fun hh => hh.1 hr), if_neg (by rw [hr]; decide)]
    · rw [if_neg (fun hh => hh.2 hr), if_neg (by rw [hr]; decide)]
    · rw [if_pos ⟨by rw [hr]; decide, by rw [hr]; decide⟩, if_pos hr]


/-- The grand emotion total is nonnegative when every score is. -/
lemma specGrandTotal_nonneg (analyses : List Analysis)
    (hnn : ∀ r ∈ analyses, ∀ p ∈ r.emotion_scores, 0 ≤ p.2) :
    0 ≤ specGrandTotal analyses := by
  unfold specGrandTotal
  refine List.sum_nonneg ?_
  intro x hx
  obtain ⟨r, hr, rfl⟩ := List.mem_map.mp hx
  refine List.sum_nonneg ?_
  intro y hy
  obtain ⟨p, hp, rfl⟩ := List.mem_map.mp hy
  exact hnn r hr p hp

/-- **C3**: the aggregation inside `calculate_eq_scores`: each sentiment
ratio is the per-label score sum divided by N (0.33 each when N = 0); each
emotion ratio is that emotion's total divided by the grand sum; when the
grand sum is 0 but keys exist the ratios fall back to a uniform distribution
over the observed (deduplicated) keys; with no emotion keys the ratio dict is
empty and every lookup yields 0. -/
theorem C3_aggregation (analyses : List Analysis)
    (hlab : ∀ r ∈ analyses, r.sentiment_label = "POSITIVE" ∨
      r.sentiment_label = "NEGATIVE" ∨ r.sentiment_label = "NEUTRAL")
    (hnn : ∀ r ∈ analyses, ∀ p ∈ r.emotion_scores, 0 ≤ p.2) :
    (analyses = [] → positive_ratio analyses = 33/100 ∧
      negative_ratio analyses = 33/100 ∧ neutral_ratio analyses = 33/100) ∧
    (analyses ≠ [] →
      positive_ratio analyses = specSentimentSum analyses "POSITIVE" / analyses.length ∧
      negative_ratio analyses = specSentimentSum analyses "NEGATIVE" / analyses.length ∧
      neutral_ratio analyses = specSentimentSum analyses "NEUTRAL" / analyses.length) ∧
    (specGrandTotal analyses ≠ 0 →
      ∀ label, emotion_ratio analyses label =
        specEmotionTotal analyses label / specGrandTotal analyses) ∧
    (specGrandTotal analyses = 0 → emotionTotals analyses ≠ [] →
      ((emotionTotals analyses).map Prod.fst).Nodup ∧
      (∀ label, (label ∈ (emotionTotals analyses).map Prod.fst ↔
        ∃ r ∈ analyses, ∃ p ∈ r.emotion_scores, p.1 = label)) ∧
      (∀ label, emotion_ratio analyses label =
        if label ∈ (emotionTotals analyses).map Prod.fst
        then (1 : ℚ) / (emotionTotals analyses).length else 0)) ∧
    ((∀ r ∈ analyses, r.emotion_scores = []) →
      emotionRatios analyses = [] ∧ ∀ label, emotion_ratio analyses label = 0) := by
  refine ⟨?_, ?_, ?_, ?_, ?_⟩
  · rintro rfl
    norm_num [positive_ratio, negative_ratio, neutral_ratio, sentTotals]
  · intro hne
    have hN : 0 < analyses.length := List.length_pos.mpr hne
    have hst := sentTotals_eq analyses
    refine ⟨?_, ?_, ?_⟩
    · unfold positive_ratio
      rw [hst]
      simp [hN]
    · unfold negative_ratio
      rw [hst]
      simp [hN]
    · unfold neutral_ratio
      rw [hst]
      simp only [hN, if_pos]
      rw [codeNeutralSum_eq analyses hlab]
  · intro hg label
    have hpos : 0 < valuesSum (emotionTotals analyses) := by
      rw [valuesSum_emotionTotals]
      exact lt_of_le_of_ne (specGrandTotal_nonneg analyses hnn) (Ne.symm hg)
    unfold emotion_ratio emotionRatios emotionRatiosOf
    rw [if_pos hpos, dictGetQ_map_div, dictGetQ_emotionTotals, valuesSum_emotionTotals]
  · intro hg _hne
    refine ⟨nodup_keys_emotionTotals analyses,
      fun label => mem_keys_emotionTotals analyses label, fun label => ?_⟩
    have hnotpos : ¬valuesSum (emotionTotals analyses) > 0 := by
      rw [valuesSum_emotionTotals, hg]
      norm_num
    unfold emotion_ratio emotionRatios emotionRatiosOf
    rw [if_neg hnotpos, dictGetQ_map_const]
  · intro hemo
    constructor
    · unfold emotionRatios
      rw [emotionTotals_of_all_empty hemo]
      norm_num [emotionRatiosOf, valuesSum]
    · exact emotion_ratio_of_all_empty hemo

/-- Witness for C3 at one POSITIVE record carrying a single joy score. -/
theorem C3_aggregation_witness :
    specGrandTotal [(⟨"POSITIVE", 3/4, [("joy", 3/5)]⟩ : Analysis)] ≠ 0 ∧
    emotion_ratio [(⟨"POSITIVE", 3/4, [("joy", 3/5)]⟩ : Analysis)] "joy" =
      specEmotionTotal [(⟨"POSITIVE", 3/4, [("joy", 3/5)]⟩ : Analysis)] "joy" /
        specGrandTotal [(⟨"POSITIVE", 3/4, [("joy", 3/5)]⟩ : Analysis)] := by
  have hg : specGrandTotal [(⟨"POSITIVE", 3/4, [("joy", 3/5)]⟩ : Analysis)] = 3/5 := by
    norm_num [specGrandTotal]
  have h := C3_aggregation [(⟨"POSITIVE", 3/4, [("joy", 3/5)]⟩ : Analysis)]
    (by
      intro r hr
      rw [List.mem_singleton] at hr
      subst hr
      left
      rfl)
    (by
      intro r hr
      rw [List.mem_singleton] at hr
      subst hr
      intro p hp
      rw [List.mem_singleton] at hp
      subst hp
      norm_num)
  exact ⟨by rw [hg]; norm_num, h.2.2.1 (by rw [hg]; norm_num) "joy"⟩


/-! ## Totality of `analyze_single_response` over documented shapes (C6) -/

lemma isStrV_exists {v : PyVal} (h : isStrV v = true) : ∃ s, v = .pstr s := by
  cases v <;> first | exact ⟨_, rfl⟩ | simp [isStrV] at h

lemma isNumV_exists {v : PyVal} (h : isNumV v = true) : ∃ q, v = .pnum q := by
  cases v <;> first | exact ⟨_, rfl⟩ | simp [isNumV] at h

lemma sentimentPart_pdict_ok (d : List (String × PyVal))
    (h : sentimentFieldsOk d = true) : ∃ pr, sentimentPart (.pdict d) = .ok pr := by
  simp only [sentimentFieldsOk, Bool.and_eq_true] at h
  obtain ⟨s, hs⟩ := isStrV_exists h.1
  obtain ⟨q, hq⟩ := isNumV_exists h.2
  refine ⟨(if upperStr s = "POSITIVE" ∨ upperStr s = "POS" then "POSITIVE"
    else if upperStr s = "NEGATIVE" ∨ upperStr s = "NEG" then "NEGATIVE"
    else "NEUTRAL", q), ?_⟩
  simp only [sentimentPart, hs, hq, pyUpper, pyFloat, Bind.bind, Except.bind,
    Pure.pure, Except.pure]

lemma sentimentPart_ok (raw : PyVal) (h : sentimentShapeOk raw = true) :
    ∃ pr, sentimentPart raw = .ok pr := by
  cases raw with
  | plist l =>
    cases l with
    | nil => exact ⟨("NEUTRAL", 1/2), rfl⟩
    | cons x tail =>
      simp only [sentimentShapeOk] at h
      cases x with
      | pdict d =>
        obtain ⟨pr, hpr⟩ := sentimentPart_pdict_ok d h
        exact ⟨pr, hpr⟩
      | pstr s => simp at h
      | pnum q => simp at h
      | plist l2 => simp at h
      | pnone => simp at h
  | pdict d => exact sentimentPart_pdict_ok d h
  | pstr s => exact ⟨("NEUTRAL", 1/2), rfl⟩
  | pnum q => exact ⟨("NEUTRAL", 1/2), rfl⟩
  | pnone => exact ⟨("NEUTRAL", 1/2), rfl⟩

lemma sentimentPart_fallback (raw : PyVal) (h : sentimentUnrecognized raw = true) :
    sentimentPart raw = .ok ("NEUTRAL", 1/2) := by
  cases raw with
  | plist l =>
    cases l with
    | nil => rfl
    | cons x tail => simp [sentimentUnrecognized] at h
  | pdict d => simp [sentimentUnrecognized] at h
  | pstr s => rfl
  | pnum q => rfl
  | pnone => rfl

lemma emotionItemStep_ok (acc : List (String × ℚ)) (item : PyVal)
    (h : emotionItemOk item = true) : ∃ r, emotionItemStep acc item = .ok r := by
  cases item with
  | pstr s => exact ⟨acc, rfl⟩
  | pnum q => exact ⟨acc, rfl⟩
  | pnone => exact ⟨acc, rfl⟩
  | pdict d =>
    simp only [emotionItemOk, Bool.and_eq_true] at h
    obtain ⟨s, hs⟩ := isStrV_exists h.1
    obtain ⟨q, hq⟩ := isNumV_exists h.2
    by_cases hne : lowerStr s = ""
    · exact ⟨acc, by simp [emotionItemStep, hs, hq, pyLowerV, pyFloat, hne,
        Bind.bind, Except.bind, Pure.pure, Except.pure]⟩
    · exact ⟨dictSetQ acc (lowerStr s) q, by simp [emotionItemStep, hs, hq,
        pyLowerV, pyFloat, hne, Bind.bind, Except.bind, Pure.pure, Except.pure]⟩
  | plist l =>
    match l with
    | [] => exact ⟨acc, rfl⟩
    | [a] => exact ⟨acc, rfl⟩
    | a :: b :: rest =>
      simp only [emotionItemOk] at h
      by_cases hne : lowerStr (pyStrOf a) = ""
      · cases b with
        | pdict d2 =>
          obtain ⟨q, hq⟩ := isNumV_exists h
          exact ⟨acc, by simp [emotionItemStep, hq, pyFloat, hne,
            Bind.bind, Except.bind, Pure.pure, Except.pure]⟩
        | pnum q =>
          exact ⟨acc, by simp [emotionItemStep, hne,
            Bind.bind, Except.bind, Pure.pure, Except.pure]⟩
        | pstr s2 =>
          exact ⟨acc, by simp [emotionItemStep, hne, floatTry,
            Bind.bind, Except.bind, Pure.pure, Except.pure]⟩
        | plist l2 =>
          exact ⟨acc, by simp [emotionItemStep, hne, floatTry,
            Bind.bind, Except.bind, Pure.pure, Except.pure]⟩
        | pnone =>
          exact ⟨acc, by simp [emotionItemStep, hne, floatTry,
            Bind.bind, Except.bind, Pure.pure, Except.pure]⟩
      · cases b with
        | pdict d2 =>
          obtain ⟨q, hq⟩ := isNumV_exists h
          exact ⟨dictSetQ acc (lowerStr (pyStrOf a)) q, by
            simp [emotionItemStep, hq, pyFloat, hne,
              Bind.bind, Except.bind, Pure.pure, Except.pure]⟩
        | pnum q =>
          exact ⟨dictSetQ acc (lowerStr (pyStrOf a)) q, by
            simp [emotionItemStep, hne, Bind.bind, Except.bind, Pure.pure, Except.pure]⟩
        | pstr s2 =>
          exact ⟨dictSetQ acc (lowerStr (pyStrOf a)) 0, by
            simp [emotionItemStep, hne, floatTry,
              Bind.bind, Except.bind, Pure.pure, Except.pure]⟩
        | plist l2 =>
          exact ⟨dictSetQ acc (lowerStr (pyStrOf a)) 0, by
            simp [emotionItemStep, hne, floatTry,
              Bind.bind, Except.bind, Pure.pure, Except.pure]⟩
        | pnone =>
          exact ⟨dictSetQ acc (lowerStr (pyStrOf a)) 0, by
            simp [emotionItemStep, hne, floatTry,
              Bind.bind, Except.bind, Pure.pure, Except.pure]⟩

lemma foldlM_emotionItemStep_ok (items : List PyVal) :
    ∀ acc, items.all emotionItemOk = true →
      ∃ r, items.foldlM emotionItemStep acc = .ok r := by
  induction items with
  | nil => intro acc _; exact ⟨acc, rfl⟩
  | cons x xs ih =>
    intro acc h
    simp only [List.all_cons, Bool.and_eq_true] at h
    obtain ⟨r1, hr1⟩ := emotionItemStep_ok acc x h.1
    obtain ⟨r2, hr2⟩ := ih r1 h.2
    refine ⟨r2, ?_⟩
    rw [List.foldlM_cons, hr1]
    exact hr2

lemma emotionDictStep_ok (acc : List (String × ℚ)) (p : String × PyVal)
    (h : emotionDictEntryOk p = true) : ∃ r, emotionDictStep acc p = .ok r := by
  cases hp2 : p.2 with
  | pnum q => exact ⟨dictSetQ acc (lowerStr p.1) q, by simp [emotionDictStep, hp2]⟩
  | pdict d2 =>
    have h2 : (match d2.find? (fun q => q.1 = "score") with
        | some q => isNumV q.2
        | none => true) = true := by
      rw [emotionDictEntryOk, hp2] at h
      exact h
    cases hf : d2.find? (fun q => q.1 = "score") with
    | some q =>
      rw [hf] at h2
      have h3 : isNumV q.2 = true := h2
      obtain ⟨qq, hqq⟩ := isNumV_exists h3
      exact ⟨dictSetQ acc (lowerStr p.1) qq, by
        simp [emotionDictStep, hp2, hf, hqq, pyFloat,
          Bind.bind, Except.bind, Pure.pure, Except.pure]⟩
    | none => exact ⟨acc, by simp [emotionDictStep, hp2, hf]⟩
  | pstr s => exact ⟨acc, by simp [emotionDictStep, hp2]⟩
  | plist l => exact ⟨acc, by simp [emotionDictStep, hp2]⟩
  | pnone => exact ⟨acc, by simp [emotionDictStep, hp2]⟩

lemma emotionDictFold_ok (d : List (String × PyVal))
    (h : d.all emotionDictEntryOk = true) : ∃ r, emotionDictFold d = .ok r := by
  unfold emotionDictFold
  have hgen : ∀ l : List (String × PyVal), l.all emotionDictEntryOk = true →
      ∀ acc, ∃ r, l.foldlM emotionDictStep acc = .ok r := by
    intro l
    induction l with
    | nil => intro _ acc; exact ⟨acc, rfl⟩
    | cons p ps ih =>
      intro hall acc
      simp only [List.all_cons, Bool.and_eq_true] at hall
      obtain ⟨r1, hr1⟩ := emotionDictStep_ok acc p hall.1
      obtain ⟨r2, hr2⟩ := ih hall.2 r1
      refine ⟨r2, ?_⟩
      rw [List.foldlM_cons, hr1]
      exact hr2
  exact hgen d h []

lemma emotionScoresOf_ok (v : PyVal) (h : emotionShapeOk v = true) :
    ∃ r, emotionScoresOf v = .ok r := by
  by_cases ht : truthy v = true
  · cases v with
    | plist items =>
      simp only [emotionShapeOk] at h
      obtain ⟨r, hr⟩ := foldlM_emotionItemStep_ok items [] h
      exact ⟨r, by simpa [emotionScoresOf, ht] using hr⟩
    | pdict d =>
      simp only [emotionShapeOk] at h
      by_cases hk : hasKey d "label" = true
      · rw [if_pos hk, Bool.and_eq_true] at h
        obtain ⟨s, hs⟩ := isStrV_exists h.1
        obtain ⟨q, hq⟩ := isNumV_exists h.2
        by_cases hne : lowerStr s = ""
        · exact ⟨[], by simp [emotionScoresOf, ht, hk, hs, hq, pyLowerV, pyFloat, hne,
            Bind.bind, Except.bind, Pure.pure, Except.pure]⟩
        · exact ⟨dictSetQ [] (lowerStr s) q, by
            simp [emotionScoresOf, ht, hk, hs, hq, pyLowerV, pyFloat, hne,
              Bind.bind, Except.bind, Pure.pure, Except.pure]⟩
      · rw [if_neg hk] at h
        obtain ⟨r, hr⟩ := emotionDictFold_ok d h
        exact ⟨r, by simpa [emotionScoresOf, ht, hk] using hr⟩
    | pstr s => exact ⟨[], by simp [emotionScoresOf, ht]⟩
    | pnum q => exact ⟨[], by simp [emotionScoresOf, ht]⟩
    | pnone => simp [truthy] at ht
  · exact ⟨[], by simp [emotionScoresOf, ht]⟩

/-- **C6**: over all documented classifier output shapes (including an
emotion classifier that raises), `analyze_single_response` never raises;
an unrecognized sentiment shape yields the (NEUTRAL, 0.5) default pair, and
an emotion-classifier error yields an empty emotion mapping with no primary
emotion. -/
theorem C6_analyze_single_response_total (sentiment_raw : PyVal)
    (emotion_call : Except Unit PyVal)
    (hs : sentimentShapeOk sentiment_raw = true)
    (he : ∀ v, emotion_call = Except.ok v → emotionShapeOk v = true) :
    (∃ fr, analyze_single_response sentiment_raw emotion_call = .ok fr) ∧
    (sentimentUnrecognized sentiment_raw = true →
      ∃ fr, analyze_single_response sentiment_raw emotion_call = .ok fr ∧
        fr.sentiment_label = "NEUTRAL" ∧ fr.sentiment_score = 1/2) ∧
    (emotion_call = Except.error () →
      ∃ fr, analyze_single_response sentiment_raw emotion_call = .ok fr ∧
        fr.emotion_scores = [] ∧ fr.primary_emotion = none ∧
        fr.primary_emotion_score = 0) := by
  obtain ⟨sp, hsp⟩ := sentimentPart_ok sentiment_raw hs
  cases emotion_call with
  | ok v =>
    have hok := he v rfl
    obtain ⟨es, hes⟩ := emotionScoresOf_ok v hok
    have hmain : analyze_single_response sentiment_raw (Except.ok v) =
        .ok ⟨sp.1, sp.2, es, (primaryOf es).1, (primaryOf es).2⟩ := by
      simp [analyze_single_response, hsp, hes, Bind.bind, Except.bind,
        Pure.pure, Except.pure]
    refine ⟨⟨_, hmain⟩, ?_, fun herr => nomatch herr⟩
    intro hu
    have hsp2 := sentimentPart_fallback sentiment_raw hu
    rw [hsp] at hsp2
    injection hsp2 with hspe
    subst hspe
    exact ⟨_, hmain, rfl, rfl⟩
  | error e =>
    have hes : emotionScoresOf (PyVal.plist []) = .ok [] := rfl
    have hmain : analyze_single_response sentiment_raw (Except.error e) =
        .ok ⟨sp.1, sp.2, [], none, 0⟩ := by
      simp [analyze_single_response, hsp, hes, Bind.bind, Except.bind,
        Pure.pure, Except.pure, primaryOf]
    refine ⟨⟨_, hmain⟩, ?_, fun _ => ⟨_, hmain, rfl, rfl, rfl⟩⟩
    intro hu
    have hsp2 := sentimentPart_fallback sentiment_raw hu
    rw [hsp] at hsp2
    injection hsp2 with hspe
    subst hspe
    exact ⟨_, hmain, rfl, rfl⟩

/-- Witness for C6 at a sentiment result of None and a raising emotion
classifier: the fallback pair and the empty emotion mapping. -/
theorem C6_analyze_single_response_total_witness :
    (∃ fr, analyze_single_response PyVal.pnone (Except.error ()) = .ok fr ∧
      fr.sentiment_label = "NEUTRAL" ∧ fr.sentiment_score = 1/2) ∧
    (∃ fr, analyze_single_response PyVal.pnone (Except.error ()) = .ok fr ∧
      fr.emotion_scores = [] ∧ fr.primary_emotion = none ∧
      fr.primary_emotion_score = 0) := by
  have h := C6_analyze_single_response_total PyVal.pnone (Except.error ()) rfl
    (fun v hv => by cases hv)
  exact ⟨h.2.1 rfl, h.2.2 rfl⟩

end EQModel
